import Mathlib

/-!
Verification of the inbox-management pipeline configuration
(`src/examples/templates/inbox_management/nodes/__init__.py`).

The repository fragment declares four `NodeSpec` records: Intake,
Fetch Emails, Classify and Act, Report.  We embed the data model and
the four records faithfully, model from the spec the engine parts that
are not in the source (Tool Gateway whitelist enforcement, the
read-only/side-effecting classification of tools), and settle the
claims about the configuration.

The `system_prompt` field of a `NodeSpec` is opaque instruction text
the engine never interprets; rather than carrying the full prose, the
machine-relevant values the prompts declare (empty-result markers,
action-record field names, tool argument forms, the max_emails default)
are embedded below as separate definitions, each citing its source line.
-/

/-- The `NodeSpec` data model from `framework.graph` as instantiated by the
source: an id, a name, a description, the node type, the client-facing flag,
the declared input and output State Store keys, and the tool whitelist.
The opaque `system_prompt` text is represented separately (see above). -/
structure NodeSpec where
  id : String
  name : String
  description : String
  node_type : String
  client_facing : Bool
  input_keys : List String
  output_keys : List String
  tools : List String
deriving DecidableEq

/-- Node 1: Intake (client-facing), source lines 7-45. -/
def intake_node : NodeSpec :=
  { id := "intake"
    name := "Intake"
    description :=
      "Receive and validate input parameters: rules and max_emails. " ++
      "Present the interpreted rules back to the user for confirmation."
    node_type := "event_loop"
    client_facing := true
    input_keys := ["rules", "max_emails"]
    output_keys := ["rules", "max_emails"]
    tools := [] }

/-- Node 2: Fetch Emails, source lines 49-74. -/
def fetch_emails_node : NodeSpec :=
  { id := "fetch-emails"
    name := "Fetch Emails"
    description :=
      "Fetch emails from the Gmail inbox up to the configured batch limit. " ++
      "Calls bulk_fetch_emails tool, which fetches via Gmail API and writes " ++
      "compact JSONL to session data_dir."
    node_type := "event_loop"
    client_facing := false
    input_keys := ["rules", "max_emails"]
    output_keys := ["emails"]
    tools := ["bulk_fetch_emails"] }

/-- Node 3: Classify and Act, source lines 78-138. -/
def classify_and_act_node : NodeSpec :=
  { id := "classify-and-act"
    name := "Classify and Act"
    description :=
      "Apply the user's rules to each email and execute " ++
      "the appropriate Gmail actions."
    node_type := "event_loop"
    client_facing := false
    input_keys := ["rules", "emails"]
    output_keys := ["actions_taken"]
    tools := ["gmail_trash_message", "gmail_modify_message",
              "gmail_batch_modify_messages", "load_data", "append_data"] }

/-- Node 4: Report, source lines 142-175. -/
def report_node : NodeSpec :=
  { id := "report"
    name := "Report"
    description := "Generate a summary report of all actions taken on the emails."
    node_type := "event_loop"
    client_facing := false
    input_keys := ["actions_taken"]
    output_keys := ["summary_report"]
    tools := ["load_data"] }

/-- The configured pipeline, in execution order
(Intake, Fetch Emails, Classify and Act, Report). -/
def pipeline : List NodeSpec :=
  [intake_node, fetch_emails_node, classify_and_act_node, report_node]

/-- The externally supplied seed keys present in the State Store at
pipeline start (spec section 6: seed inputs `rules`, `max_emails`). -/
def seed_keys : List String := ["rules", "max_emails"]

/-- Running over the nodes in order with an accumulator of available keys:
`true` iff every node's `input_keys` are all available when the node starts,
where a key is available iff it is a seed key or an output key of an
earlier node. -/
def noReadBeforeWrite (avail : List String) : List NodeSpec → Bool
  | [] => true
  | n :: rest =>
      n.input_keys.all (fun k => avail.contains k) &&
      noReadBeforeWrite (avail ++ n.output_keys) rest

/-- Running over the nodes in order: `true` iff no node's `output_keys`
contain a key already present (a seed key or an output key of an earlier
node), i.e. no `set_output` target is a pre-existing store key. -/
def noRewriteOfExistingKey (avail : List String) : List NodeSpec → Bool
  | [] => true
  | n :: rest =>
      n.output_keys.all (fun k => !(avail.contains k)) &&
      noRewriteOfExistingKey (avail ++ n.output_keys) rest

/-- `true` iff the `output_keys` of distinct nodes in the list are pairwise
disjoint (no two nodes declare the same output key). -/
def pairwiseDisjointOutputs : List NodeSpec → Bool
  | [] => true
  | n :: rest =>
      rest.all (fun m => n.output_keys.all (fun k => !(m.output_keys.contains k))) &&
      pairwiseDisjointOutputs rest

/-- The value the Classify and Act system prompt instructs the node to pass
to `set_output("actions_taken", ...)` when the loaded email data is empty
(source line 106: "If the result is empty, call
set_output(actions_taken, no emails to process) and stop."). -/
def classify_and_act_empty_output : String := "no emails to process"

/-- The `actions_taken` value the Report system prompt singles out as the
"no actions" marker (source line 155: "If it equals [], there are no
actions — generate a report stating no emails were processed"). -/
def report_empty_marker : String := "[]"

/-- What the Report node does with the `actions_taken` input value. -/
inductive ReportBehavior where
  /-- Report that no emails were processed, without loading any file. -/
  | noEmailsProcessed : ReportBehavior
  /-- Treat the value as a filename and load the action records from it. -/
  | loadActionsFile : String → ReportBehavior
deriving DecidableEq

/-- The Report prompt's dispatch on the `actions_taken` input (source lines
154-156): exactly the marker value `"[]"` is reported as "no emails were
processed"; any other value is treated as a filename passed to `load_data`. -/
def report_dispatch (actions_taken : String) : ReportBehavior :=
  if actions_taken = report_empty_marker then ReportBehavior.noEmailsProcessed
  else ReportBehavior.loadActionsFile actions_taken

/-- The field names of the action record appended to `actions.jsonl`, as
declared by the Classify and Act system prompt (source line 115:
"append_data(filename=actions.jsonl, data=<JSON of
\x7bemail_id, subject, from, action\x7d>)"). -/
def classify_action_record_fields : List String :=
  ["email_id", "subject", "from", "action"]

/-- The field names of an action-record line as declared by the Report
system prompt (source line 157: "each line is one JSON object with:
email_id, subject, from, action"). -/
def report_action_record_fields : List String :=
  ["email_id", "subject", "from", "action"]

/-- The argument form a Gmail tool takes for the entities it acts on. -/
inductive ArgForm where
  /-- Takes a single entity (message) id per call. -/
  | single : ArgForm
  /-- Takes a list of entity (message) ids in one call. -/
  | batch : ArgForm
deriving DecidableEq

/-- Tool argument forms as declared by the Classify and Act system prompt
(source lines 95-97): `gmail_batch_modify_messages(message_ids, ...)` is
batched, `gmail_modify_message(message_id, ...)` and
`gmail_trash_message(message_id)` take a single message id. -/
def toolArgForm : String → Option ArgForm
  | "gmail_batch_modify_messages" => some ArgForm.batch
  | "gmail_modify_message" => some ArgForm.single
  | "gmail_trash_message" => some ArgForm.single
  | _ => none

/-- Whether a tool id names a trash operation: of the tools declared in the
source, only `gmail_trash_message` moves messages to trash (source lines
97 and 129). -/
def isTrashTool : String → Bool
  | "gmail_trash_message" => true
  | _ => false

/-- Whether a tool id names a label-modification operation
(source lines 95-96). -/
def isModifyTool : String → Bool
  | "gmail_batch_modify_messages" => true
  | "gmail_modify_message" => true
  | _ => false

/-- Number of tool calls required to apply one tool to `n` entities: a
batched tool covers all of them in one call (when there is at least one),
a single-entity tool requires one call per entity. -/
def callsRequired (form : ArgForm) (n : Nat) : Nat :=
  match form with
  | ArgForm.batch => min n 1
  | ArgForm.single => n

/-- Modelled from the spec: classification of the tool ids appearing in the
source as side-effecting or read-only.  The tool implementations are external
collaborators not present in the source; spec section 4.4 declares `load` "a
pure, repeatable read (no mutation)" and section 6 lists the fetch, mutate
and append operations as side-effecting.  Unknown ids are conservatively
treated as side-effecting. -/
def sideEffecting : String → Bool
  | "load_data" => false
  | _ => true

/-- The ids of the pipeline nodes whose whitelist contains the given tool id,
in pipeline order. -/
def nodesWithTool (t : String) : List String :=
  (pipeline.filter (fun n => n.tools.contains t)).map (fun n => n.id)

/-- Every tool id mentioned by some node's whitelist, with multiplicity. -/
def all_tool_ids : List String :=
  (pipeline.map (fun n => n.tools)).flatten

/-- The side-effecting tool ids appearing in the configuration. -/
def side_effecting_tool_ids : List String :=
  all_tool_ids.filter sideEffecting

/-- Errors of the Tool Gateway (spec section 4.3). -/
inductive GatewayError where
  | toolNotPermitted : GatewayError
  | toolExecution : GatewayError
deriving DecidableEq

/-- Modelled from the spec: the Tool Gateway (spec section 4.3), which is not
in the source.  `invoke` rejects a call whose tool id is not in the node's
whitelist with `ToolNotPermittedError`, before anything executes; a permitted
call is delegated verbatim to the external tool implementation `ext`. -/
def gateway_invoke (node : NodeSpec) (tool_id : String)
    (ext : String → Except GatewayError String) : Except GatewayError String :=
  if node.tools.contains tool_id then ext tool_id
  else Except.error GatewayError.toolNotPermitted

/-- The batch size the Intake node confirms, as instructed by its system
prompt (source line 35: "If max_emails is not provided, default to 100."):
the provided value, or 100 when absent. -/
def intake_confirmed_max_emails (provided : Option Nat) : Nat :=
  provided.getD 100

/-- The `max_emails` value Intake writes with `set_output`, as instructed by
its system prompt (source line 42: "the confirmed max_emails as a string
number, e.g. 100"): the confirmed batch size rendered as a decimal string. -/
def intake_max_emails_output (provided : Option Nat) : String :=
  toString (intake_confirmed_max_emails provided)

/-- C1: in the configured four-node pipeline run in order (Intake, Fetch
Emails, Classify and Act, Report), every key in each node's `input_keys` is
available before that node starts: it is a seed key (`rules`, `max_emails`)
or an output key of an earlier node, so no node reads a State Store key
before it is written. -/
theorem pipeline_no_read_before_write :
    noReadBeforeWrite seed_keys pipeline = true := by decide

/-- C2 (evaluation at the failing input): when fetch yields zero email
records, the value the Classify and Act prompt writes to `actions_taken`
is not the marker the Report prompt recognizes, so Report treats it as a
filename to load instead of reporting that no emails were processed. -/
theorem empty_marker_mismatch :
    classify_and_act_empty_output ≠ report_empty_marker ∧
    report_dispatch classify_and_act_empty_output =
      ReportBehavior.loadActionsFile classify_and_act_empty_output := by decide

/-- C3 (counterexample): the claim that no node's `output_keys` contain an
already-existing key fails on the configuration: the Intake node's
`output_keys` are exactly the seed keys `rules` and `max_emails`, which are
in the State Store at pipeline start. -/
theorem intake_outputs_are_seed_keys :
    noRewriteOfExistingKey seed_keys pipeline = false ∧
    intake_node.output_keys = seed_keys := by decide

/-- C3 (amended): the nodes' `output_keys` are pairwise disjoint, and no
node after Intake writes a seed key or an output key of an earlier node;
the one exception is Intake itself, whose `output_keys` are exactly the
seed keys `rules` and `max_emails` (it re-confirms the seeds). -/
theorem outputs_written_once_after_intake :
    pairwiseDisjointOutputs pipeline = true ∧
    intake_node.output_keys = seed_keys ∧
    noRewriteOfExistingKey seed_keys pipeline.tail = true := by decide

/-- C4 (counterexample): the action-record field names declared by the
source are not `entity_id, subject, sender, action`. -/
theorem action_record_fields_not_entity_sender :
    classify_action_record_fields ≠ ["entity_id", "subject", "sender", "action"] ∧
    report_action_record_fields ≠ ["entity_id", "subject", "sender", "action"] := by
  decide

/-- C4 (amended): every Action Record has exactly the fields
`email_id, subject, from, action`, and the Classify and Act prompt (which
writes the records) and the Report prompt (which reads them) declare the
same field list. -/
theorem action_record_fields_agree :
    classify_action_record_fields = ["email_id", "subject", "from", "action"] ∧
    report_action_record_fields = classify_action_record_fields := by decide

/-- C5: the Report node's sole declared input key is `actions_taken`, its
tool whitelist permits only the read-only `load_data` (so it can perform no
side-effecting tool call), and its only State Store effect is its single
output key `summary_report`. -/
theorem report_node_frame :
    report_node.input_keys = ["actions_taken"] ∧
    report_node.tools = ["load_data"] ∧
    report_node.tools.all (fun t => !(sideEffecting t)) = true ∧
    report_node.output_keys = ["summary_report"] := by decide

/-- C6: exactly one node in the configured pipeline is client-facing, and
it is the Intake node; Fetch Emails, Classify and Act and Report all have
`client_facing = false`. -/
theorem intake_unique_client_facing :
    (pipeline.filter (fun n => n.client_facing)).map (fun n => n.id) = ["intake"] ∧
    intake_node.client_facing = true ∧
    fetch_emails_node.client_facing = false ∧
    classify_and_act_node.client_facing = false ∧
    report_node.client_facing = false := by decide

/-- C7: the only trash tool in the Classify and Act whitelist is
`gmail_trash_message`, which takes a single message id, so trashing `n`
emails requires `n` per-entity calls; label modification, by contrast, has
the batched variant `gmail_batch_modify_messages` in the same whitelist. -/
theorem trash_has_no_batch_form :
    classify_and_act_node.tools.filter isTrashTool = ["gmail_trash_message"] ∧
    toolArgForm "gmail_trash_message" = some ArgForm.single ∧
    (∀ n : Nat, callsRequired ArgForm.single n = n) ∧
    classify_and_act_node.tools.contains "gmail_batch_modify_messages" = true ∧
    isModifyTool "gmail_batch_modify_messages" = true ∧
    toolArgForm "gmail_batch_modify_messages" = some ArgForm.batch := by
  exact ⟨by decide, rfl, fun n => rfl, by decide, rfl, rfl⟩

/-- C8: when the seed input `max_emails` is absent the confirmed batch size
is 100 and the Intake output value is the string "100"; in every case the
`max_emails` value Intake writes is a string-encoded integer. -/
theorem intake_max_emails_default_and_string :
    intake_max_emails_output none = "100" ∧
    ∀ p : Option Nat, ∃ n : Nat, intake_max_emails_output p = toString n := by
  exact ⟨rfl, fun p => ⟨intake_confirmed_max_emails p, rfl⟩⟩

/-- C9: the Intake node's tool whitelist is empty, so under the whitelist
enforcement of the Tool Gateway every tool invocation attempted by Intake
fails with `ToolNotPermittedError` regardless of which tool is named and of
what the external tool implementation would do — nothing executes. -/
theorem intake_tools_empty_all_calls_rejected :
    intake_node.tools = [] ∧
    ∀ (t : String) (ext : String → Except GatewayError String),
      gateway_invoke intake_node t ext =
        Except.error GatewayError.toolNotPermitted := by
  exact ⟨rfl, fun t ext => rfl⟩

/-- C10: each side-effecting tool id in the configuration appears in exactly
one node's whitelist — `bulk_fetch_emails` only in Fetch Emails, the three
Gmail-mutating tools and `append_data` only in Classify and Act — and the
only tool id shared by two nodes is the read-only `load_data` (Classify and
Act, Report). -/
theorem tool_whitelists_partition_side_effects :
    side_effecting_tool_ids.all (fun t => (nodesWithTool t).length == 1) = true ∧
    nodesWithTool "bulk_fetch_emails" = ["fetch-emails"] ∧
    nodesWithTool "gmail_trash_message" = ["classify-and-act"] ∧
    nodesWithTool "gmail_modify_message" = ["classify-and-act"] ∧
    nodesWithTool "gmail_batch_modify_messages" = ["classify-and-act"] ∧
    nodesWithTool "append_data" = ["classify-and-act"] ∧
    nodesWithTool "load_data" = ["classify-and-act", "report"] ∧
    all_tool_ids.all
      (fun t => t == "load_data" || (nodesWithTool t).length == 1) = true := by
  decide
